import Mathlib

/-!
Shallow embedding of the company record freshness and refresh pipeline of
this repository (src/src/services/company_service.py and its collaborators:
src/src/parsers/company_parser.py, src/src/utils/repository.py,
src/src/utils/unitofwork.py, src/src/repositories/company.py,
src/src/repositories/user_subscription.py, src/src/notifications/notifier.py,
src/src/services/email_service.py, src/src/utils/template_renderer.py,
src/src/schemas/company.py, src/src/models/company.py,
src/src/models/users.py, src/src/models/user_subscription.py).

Timestamps are integers (seconds); `datetime.utcnow()` becomes an explicit
`now : Int` argument threaded through each call.  The external registry
website together with the HTML extraction rules of the parser is abstracted
as an environment `SourceEnv : String -> Except FetchErr SourceAttrs`
giving, per company code, either the normalized field values the parser
would extract from the current page or the fetch or parse failure; what the
embedding keeps of parse_company is the shape of its result (lines 200-215
and 232-247 of company_parser.py): every field best-effort optional, `code`
taken from the input code, and `last_updated` set to the current time
(company_parser.py line 214).

Each service function runs inside one unit-of-work transaction
(src/src/utils/unitofwork.py): on success the session commits, on an
exception it rolls back and the exception is re-raised.  Accordingly each
embedded function returns `Except Err (...)`: an `.ok` result carries the
committed store, while an `.error` means the transaction rolled back and
the caller observes the store unchanged.
-/

namespace CompanySync

/-- Length of `timedelta(days=1)` in seconds, the staleness threshold used by
get_company_data and update_company_data_for_all. -/
def oneDay : Int := 86400

/-- Modelled from the spec: the fetch failure taxonomy of section 7,
`FetchError := NotFound | Unreachable | ParseFailure`.  The concrete error
classes raised by company_parser.py (PageNotFoundError, the requests
exceptions raised by raise_for_status, ValueError for a missing data table)
are referenced by the source but their class definitions are absent from
src/src/exceptions/errors.py, so the taxonomy is taken from the spec. -/
inductive FetchErr where
  | notFound
  | unreachable
  | parseFailure
deriving DecidableEq, Repr

/-- Normalized per-code page content: the twelve optional attribute fields a
successful run of parse_company extracts.  This abstracts the HTML
extraction of company_parser.py; all fields are optional, matching the
best-effort `if ... else None` extraction in lines 200-213. -/
structure SourceAttrs where
  name : Option String
  status : Option String
  registration_date : Option String
  authorized_capital : Option String
  legal_form : Option String
  main_activity : Option String
  contact_info : Option String
  authorized_person : Option String
  tax_info : Option String
  registration_authorities : Option String
  last_inspection_date : Option String
  company_profile : Option String
deriving DecidableEq, Repr

/-- The external source: per company code, either the normalized page
content or a fetch or parse failure. -/
def SourceEnv : Type := String → Except FetchErr SourceAttrs

/-- CompanyDataModel of src/src/schemas/company.py: optional id, required
code, twelve optional attribute strings, and a last_updated timestamp. -/
structure CompanyDataModel where
  id : Option Nat
  code : String
  name : Option String
  status : Option String
  registration_date : Option String
  authorized_capital : Option String
  legal_form : Option String
  main_activity : Option String
  contact_info : Option String
  authorized_person : Option String
  tax_info : Option String
  registration_authorities : Option String
  last_inspection_date : Option String
  company_profile : Option String
  last_updated : Int
deriving DecidableEq, Repr

/-- The value of `model.dict(exclude=set(id))`: every field of
CompanyDataModel except `id`.  Note that `last_updated` is one of its
fields. -/
structure CompanyDict where
  code : String
  name : Option String
  status : Option String
  registration_date : Option String
  authorized_capital : Option String
  legal_form : Option String
  main_activity : Option String
  contact_info : Option String
  authorized_person : Option String
  tax_info : Option String
  registration_authorities : Option String
  last_inspection_date : Option String
  company_profile : Option String
  last_updated : Int
deriving DecidableEq, Repr

/-- Embeds the expression `m.dict(exclude=set(id))` used at
company_service.py lines 40-41, 44 and 95-96. -/
def dict_exclude_id (m : CompanyDataModel) : CompanyDict :=
  { code := m.code
    name := m.name
    status := m.status
    registration_date := m.registration_date
    authorized_capital := m.authorized_capital
    legal_form := m.legal_form
    main_activity := m.main_activity
    contact_info := m.contact_info
    authorized_person := m.authorized_person
    tax_info := m.tax_info
    registration_authorities := m.registration_authorities
    last_inspection_date := m.last_inspection_date
    company_profile := m.company_profile
    last_updated := m.last_updated }

/-- The change comparison of company_service.py lines 40 and 95:
`new.dict(exclude=set(id)) != old.dict(exclude=set(id))`. -/
def dicts_differ_excluding_id (new old : CompanyDataModel) : Bool :=
  dict_exclude_id new != dict_exclude_id old

/-- A persisted row of the companies table (src/src/models/company.py):
like CompanyDataModel but with a mandatory primary key. -/
structure CompanyRow where
  id : Nat
  code : String
  name : Option String
  status : Option String
  registration_date : Option String
  authorized_capital : Option String
  legal_form : Option String
  main_activity : Option String
  contact_info : Option String
  authorized_person : Option String
  tax_info : Option String
  registration_authorities : Option String
  last_inspection_date : Option String
  company_profile : Option String
  last_updated : Int
deriving DecidableEq, Repr

/-- CompanyDataModel.from_orm on a companies-table row. -/
def from_orm (r : CompanyRow) : CompanyDataModel :=
  { id := some r.id
    code := r.code
    name := r.name
    status := r.status
    registration_date := r.registration_date
    authorized_capital := r.authorized_capital
    legal_form := r.legal_form
    main_activity := r.main_activity
    contact_info := r.contact_info
    authorized_person := r.authorized_person
    tax_info := r.tax_info
    registration_authorities := r.registration_authorities
    last_inspection_date := r.last_inspection_date
    company_profile := r.company_profile
    last_updated := r.last_updated }

/-- A row of the users table (src/src/models/users.py), restricted to the
fields the company core reads. -/
structure UserRow where
  id : Nat
  email : String
deriving DecidableEq, Repr

/-- The persistent store owned by the record-store collaborator: companies,
users, user_subscriptions (pairs of user id and company id,
src/src/models/user_subscription.py), and the next primary key the
companies table will assign. -/
structure Store where
  companies : List CompanyRow
  users : List UserRow
  subscriptions : List (Nat × Nat)
  next_company_id : Nat
deriving DecidableEq, Repr

/-- Exceptions raised by the embedded code.  `fetchError` stands for the
failures of parse_company; `companyNotFound` and `alreadySubscribed` stand
for the CompanyNotFoundError and AlreadySubscribedError referenced by
company_service.py (their definitions are absent from
src/src/exceptions/errors.py and are modelled from the spec, section 7);
`attributeError` is the Python AttributeError raised when a name is looked
up on an object that does not define it; `noResultFound` is the sqlalchemy
error raised by `.returning(...)` with `scalar_one()` when an UPDATE
matched no row; `typeError` is the Python TypeError. -/
inductive Err where
  | fetchError (e : FetchErr)
  | companyNotFound
  | alreadySubscribed (user_id : Nat)
  | attributeError (attr : String)
  | noResultFound
  | typeError
deriving DecidableEq, Repr

/-- find_one_or_none filtered by code (src/src/utils/repository.py lines
115-127, applied at company_service.py lines 66 and 120). -/
def find_one_or_none_by_code (st : Store) (code : String) : Option CompanyRow :=
  st.companies.find? (fun r => r.code == code)

/-- find_one_or_none filtered by id (applied at company_service.py line
144). -/
def find_one_or_none_by_id (st : Store) (company_id : Nat) : Option CompanyRow :=
  st.companies.find? (fun r => r.id == company_id)

/-- Builds the row an INSERT of the given dict values creates when the
table assigns primary key i. -/
def row_of_dict (i : Nat) (d : CompanyDict) : CompanyRow :=
  { id := i
    code := d.code
    name := d.name
    status := d.status
    registration_date := d.registration_date
    authorized_capital := d.authorized_capital
    legal_form := d.legal_form
    main_activity := d.main_activity
    contact_info := d.contact_info
    authorized_person := d.authorized_person
    tax_info := d.tax_info
    registration_authorities := d.registration_authorities
    last_inspection_date := d.last_inspection_date
    company_profile := d.company_profile
    last_updated := d.last_updated }

/-- add_one of SQLAlchemyRepository (repository.py lines 57-69): inserts
the dict as a new row and returns the assigned id together with the new
store. -/
def add_one (st : Store) (d : CompanyDict) : Nat × Store :=
  (st.next_company_id,
    { st with
      companies := st.companies ++ [row_of_dict st.next_company_id d]
      next_company_id := st.next_company_id + 1 })

/-- update_one of SQLAlchemyRepository (repository.py lines 71-84): UPDATE
of all non-id fields of the rows whose id equals record_id; the
`.returning` with `scalar_one()` raises when no row matched.  The service
passes `company_data.id`, which is an optional value; a SQL filter on a
NULL id matches no row. -/
def update_one (st : Store) (record_id : Option Nat) (d : CompanyDict) :
    Except Err Store :=
  if st.companies.any (fun r => some r.id == record_id) then
    .ok { st with
          companies := st.companies.map
            (fun r => if some r.id == record_id then row_of_dict r.id d else r) }
  else
    .error .noResultFound

/-- parse_company of src/src/parsers/company_parser.py: fetches the page
for the code from the abstracted source and, on success, returns the
normalized record with `code` set from the input code and `last_updated`
set to the current time (line 214); `id` is not among the parsed keys, so
the CompanyDataModel built from this dict keeps its default id of None. -/
def parse_company (env : SourceEnv) (company_code : String) (now : Int) :
    Except FetchErr CompanyDataModel :=
  match env company_code with
  | .error e => .error e
  | .ok a =>
      .ok { id := none
            code := company_code
            name := a.name
            status := a.status
            registration_date := a.registration_date
            authorized_capital := a.authorized_capital
            legal_form := a.legal_form
            main_activity := a.main_activity
            contact_info := a.contact_info
            authorized_person := a.authorized_person
            tax_info := a.tax_info
            registration_authorities := a.registration_authorities
            last_inspection_date := a.last_inspection_date
            company_profile := a.company_profile
            last_updated := now }

/-- Record of one notify_user invocation (recipient email, subject,
message body).  The refresh functions report the list of such invocations
they perform, so that presence or absence of notification is an observable
of the embedding. -/
structure NotifyCall where
  email : String
  subject : String
  message : String
deriving DecidableEq, Repr

/-- fetch_or_update_company of company_service.py lines 15-49: parse, then
compare the parsed dict with the stored dict excluding only id; on
difference update the stored row, on absence insert; return the parsed
model (with the new id filled in after an insert).  No notify_user call
occurs anywhere in the body, hence the empty invocation list. -/
def fetch_or_update_company (env : SourceEnv) (st : Store)
    (company_code : String) (now : Int)
    (company_data : Option CompanyDataModel) :
    Except Err (Store × CompanyDataModel × List NotifyCall) :=
  match parse_company env company_code now with
  | .error e => .error (.fetchError e)
  | .ok parsed_data_model =>
      match company_data with
      | some cd =>
          if dicts_differ_excluding_id parsed_data_model cd then
            match update_one st cd.id (dict_exclude_id parsed_data_model) with
            | .error e => .error e
            | .ok st2 => .ok (st2, parsed_data_model, [])
          else
            .ok (st, parsed_data_model, [])
      | none =>
          let (new_id, st2) := add_one st (dict_exclude_id parsed_data_model)
          .ok (st2, { parsed_data_model with id := some new_id }, [])

/-- get_company_data of company_service.py lines 52-71: look the code up;
if use_cache holds, a row exists, and its last_updated is strictly newer
than one day before now, return the stored record with no fetch and no
write; otherwise run fetch_or_update_company on the stored record (if
any). -/
def get_company_data (env : SourceEnv) (st : Store) (company_code : String)
    (now : Int) (use_cache : Bool) :
    Except Err (Store × CompanyDataModel × List NotifyCall) :=
  match find_one_or_none_by_code st company_code with
  | some company =>
      if use_cache && decide (company.last_updated > now - oneDay) then
        .ok (st, from_orm company, [])
      else
        fetch_or_update_company env st company_code now (some (from_orm company))
  | none => fetch_or_update_company env st company_code now none

/-- The methods defined on CompanyRepository: src/src/repositories/company.py
adds none of its own, so these are exactly the methods of its base class
SQLAlchemyRepository (src/src/utils/repository.py lines 57-210). -/
def companyRepositoryMethods : List String :=
  ["add_one", "update_one", "update_instance", "delete_one",
   "find_one_or_none", "find_all", "find_one", "get_stale_records",
   "subscription_exists", "add_subscription",
   "get_users_subscribed_to_company"]

/-- The attributes the UnitOfWork of src/src/utils/unitofwork.py carries
after __aenter__ (lines 42-46): the session plus the two repositories it
constructs.  No user_subscription repository is attached, although
UserSubscriptionRepository exists in src/src/repositories/user_subscription.py. -/
def unitOfWorkAttributes : List String :=
  ["session", "users", "company"]

/-- Modelled from the spec: the stale-record query
`uow.company.get_stale_records_as_dict(threshold)` invoked at
company_service.py line 86 is defined nowhere under src/ (the base class
defines only get_stale_records, repository.py lines 154-167).  Following
spec section 4.4, the query is modelled as returning every stored record
whose last_updated is older than the threshold, as the dicts the loop body
expects. -/
def get_stale_records_as_dict (st : Store) (threshold : Int) : List CompanyRow :=
  st.companies.filter (fun r => decide (r.last_updated < threshold))

/-- The loop body of update_company_data_for_all (company_service.py lines
91-97): for each stale record in order, parse the current page, compare
the parsed dict with the stored dict excluding only id, and update the row
on difference.  There is no exception handling around an iteration: a
parse failure escapes the loop, rolls back the transaction and propagates.
No notify_user call occurs in the body, hence the empty invocation list on
success. -/
def update_company_sweep_loop (env : SourceEnv) (now : Int) :
    List CompanyRow → Store → Except Err (Store × List NotifyCall)
  | [], st => .ok (st, [])
  | company_data :: rest, st =>
      let company_model := from_orm company_data
      match parse_company env company_model.code now with
      | .error e => .error (.fetchError e)
      | .ok updated_data =>
          if dicts_differ_excluding_id updated_data company_model then
            match update_one st company_model.id (dict_exclude_id updated_data) with
            | .error e => .error e
            | .ok st2 => update_company_sweep_loop env now rest st2
          else
            update_company_sweep_loop env now rest st

/-- update_company_data_for_all of company_service.py lines 74-100, as
written: it first looks up `get_stale_records_as_dict` on the company
repository; that name is not among the methods the repository defines, so
the attribute lookup raises AttributeError before any record is fetched or
written, the transaction rolls back, and the error propagates.  The loop
body behind the guard embeds lines 86-99 for the counterfactual in which
the lookup succeeded. -/
def update_company_data_for_all (env : SourceEnv) (st : Store) (now : Int) :
    Except Err (Store × List NotifyCall) :=
  if companyRepositoryMethods.contains "get_stale_records_as_dict" then
    update_company_sweep_loop env now
      (get_stale_records_as_dict st (now - oneDay)) st
  else
    .error (.attributeError "get_stale_records_as_dict")

/-- Modelled from the spec: the sweep as it would run if the stale-record
query were present (spec section 4.4 bulk path): process each record older
than one day through the fetch-compare-write loop of lines 91-97.  Used to
settle the claims about the behavior of the loop body itself. -/
def update_company_data_for_all_body (env : SourceEnv) (st : Store) (now : Int) :
    Except Err (Store × List NotifyCall) :=
  update_company_sweep_loop env now
    (get_stale_records_as_dict st (now - oneDay)) st

/-- subscription_exists of SQLAlchemyRepository (repository.py lines
169-183) on the user_subscriptions table. -/
def subscription_exists (st : Store) (user_id company_id : Nat) : Bool :=
  st.subscriptions.any (fun s => s == (user_id, company_id))

/-- add_subscription of SQLAlchemyRepository (repository.py lines 185-195)
on the user_subscriptions table. -/
def add_subscription (st : Store) (user_id company_id : Nat) : Store :=
  { st with subscriptions := st.subscriptions ++ [(user_id, company_id)] }

/-- get_users_subscribed_to_company of SQLAlchemyRepository (repository.py
lines 197-210): users joined with the subscription rows of the company. -/
def get_users_subscribed_to_company (st : Store) (company_id : Nat) :
    List UserRow :=
  st.users.filter
    (fun u => st.subscriptions.any (fun s => s == (u.id, company_id)))

/-- subscribe_user_to_company of company_service.py lines 103-132, as
written: find the company by code (raising CompanyNotFoundError when
absent), then access `uow.user_subscription` — an attribute the UnitOfWork
never sets (unitofwork.py lines 42-46 attach only users and company), so
the lookup raises AttributeError, the transaction rolls back, and no
subscription is ever written.  The logic behind the guard embeds lines
124-132 for the counterfactual in which the attribute existed. -/
def subscribe_user_to_company (st : Store) (company_code : String)
    (user_id : Nat) : Except Err (Store × String) :=
  match find_one_or_none_by_code st company_code with
  | none => .error .companyNotFound
  | some company =>
      if unitOfWorkAttributes.contains "user_subscription" then
        if subscription_exists st user_id company.id then
          .error (.alreadySubscribed user_id)
        else
          .ok (add_subscription st user_id company.id,
               "You are now subscribed to updates for company " ++
                 (company.name.getD "None"))
      else
        .error (.attributeError "user_subscription")

/-- Modelled from the spec: subscribe_user_to_company as it would run if
the UnitOfWork attached the UserSubscriptionRepository that exists in
src/src/repositories/user_subscription.py (spec section 6 requires the
unit of work to expose the subscription primitives): the body of
company_service.py lines 119-132 with the missing wiring supplied. -/
def subscribe_user_to_company_wired (st : Store) (company_code : String)
    (user_id : Nat) : Except Err (Store × String) :=
  match find_one_or_none_by_code st company_code with
  | none => .error .companyNotFound
  | some company =>
      if subscription_exists st user_id company.id then
        .error (.alreadySubscribed user_id)
      else
        .ok (add_subscription st user_id company.id,
             "You are now subscribed to updates for company " ++
               (company.name.getD "None"))

/-- A Python value flowing through the dynamically-typed notification
chain: a plain string, a starlette HTMLResponse wrapping rendered content,
or a list of strings (the recipients list send_email expects). -/
inductive PyVal where
  | str (s : String)
  | htmlResponse (content : String)
  | strList (l : List String)
deriving DecidableEq, Repr

/-- Modelled from the spec: render_message of
src/src/utils/template_renderer.py renders the named jinja template with
the given context; the template files themselves are not under src/, so
rendering is abstracted as a concrete injective serialization of the
template name and the two context values {username, company_name} that the
notification path supplies (spec section 4.5).  render_message wraps the
result in an HTMLResponse. -/
def render_template (template_name username company_name : String) : String :=
  "<" ++ template_name ++ "|username=" ++ username ++
    "|company_name=" ++ company_name ++ ">"

/-- Abstracted SMTP_EMAIL configuration value of
src/src/core/config/email.py, the From address send_email uses. -/
def smtpSenderEmail : String := "smtp-sender"

/-- What EmailService.send_email hands to smtplib when it reaches the send:
the message headers, the decoded html body, and the to_addrs argument. -/
structure SmtpRequest where
  subject : PyVal
  sender : String
  to_line : String
  html : String
  to_addrs : PyVal
deriving DecidableEq, Repr

/-- The expression `", ".join(recipients)`: joins a list of strings; a
plain string is an iterable of its characters, so it joins them; an
HTMLResponse is not iterable and raises TypeError. -/
def pyJoinComma : PyVal → Except Err String
  | .strList l => .ok (String.intercalate ", " l)
  | .str s => .ok (String.intercalate ", " (s.toList.map (fun c => String.mk [c])))
  | .htmlResponse _ => .error .typeError

/-- EmailService.send_email of src/src/services/email_service.py lines
18-34, up to the hand-off to smtplib.  Its first statement is
`body.body.decode` — valid only when `body` is an HTMLResponse; any other
value has no `body` attribute and the call raises AttributeError (this
statement sits before the try block, so the error propagates). -/
def send_email (subject body recipients : PyVal) : Except Err SmtpRequest :=
  match body with
  | .htmlResponse content =>
      match pyJoinComma recipients with
      | .error e => .error e
      | .ok joined =>
          .ok { subject := subject
                sender := smtpSenderEmail
                to_line := joined
                html := content
                to_addrs := recipients }
  | _ => .error (.attributeError "body")

/-- notify_user of src/src/notifications/notifier.py: it forwards its
three arguments positionally to email_service.send_email, whose parameters
are (subject, body, recipients) — so the email lands in the subject slot,
the subject in the body slot and the message in the recipients slot. -/
def notify_user (email subject message : PyVal) : Except Err SmtpRequest :=
  send_email email subject message

/-- The per-subscriber loop of notify_subscribers_of_update
(company_service.py lines 150-158): render the company-update template
with username bound to the subscriber email and company_name bound to the
company name, unwrap the HTMLResponse to a plain string, and call
notify_user(user.email, "Company Update Notification", message_content).
The loop has no exception handling, so a failure for one subscriber aborts
the remaining ones. -/
def notify_subscribers_loop (company_name : String) :
    List UserRow → Except Err (List SmtpRequest)
  | [] => .ok []
  | user :: rest =>
      let message_content :=
        render_template "company_update_notification" user.email company_name
      match notify_user (.str user.email) (.str "Company Update Notification")
          (.str message_content) with
      | .error e => .error e
      | .ok req =>
          match notify_subscribers_loop company_name rest with
          | .error e => .error e
          | .ok reqs => .ok (req :: reqs)

/-- notify_subscribers_of_update of company_service.py lines 135-158, as
written: look the company up by id (silent no-op when absent), then access
`uow.user_subscription` — an attribute the UnitOfWork never sets — so the
lookup raises AttributeError before any subscriber is fetched or notified.
The loop behind the guard embeds lines 148-158 for the counterfactual in
which the attribute existed.  The source also gives this function no
caller anywhere under src/. -/
def notify_subscribers_of_update (st : Store) (company_id : Nat) :
    Except Err (List SmtpRequest) :=
  match find_one_or_none_by_id st company_id with
  | none => .ok []
  | some company =>
      if unitOfWorkAttributes.contains "user_subscription" then
        notify_subscribers_loop (company.name.getD "None")
          (get_users_subscribed_to_company st company_id)
      else
        .error (.attributeError "user_subscription")

/-- Modelled from the spec: notify_subscribers_of_update as it would run
if the UnitOfWork attached the UserSubscriptionRepository (spec section 6):
the body of company_service.py lines 143-158 with the missing wiring
supplied. -/
def notify_subscribers_of_update_wired (st : Store) (company_id : Nat) :
    Except Err (List SmtpRequest) :=
  match find_one_or_none_by_id st company_id with
  | none => .ok []
  | some company =>
      notify_subscribers_loop (company.name.getD "None")
        (get_users_subscribed_to_company st company_id)

/-- Projection of the attribute fields of a model back to page content:
a source serving exactly these values is one whose content matches the
stored record. -/
def source_attrs_of (m : CompanyDataModel) : SourceAttrs :=
  { name := m.name
    status := m.status
    registration_date := m.registration_date
    authorized_capital := m.authorized_capital
    legal_form := m.legal_form
    main_activity := m.main_activity
    contact_info := m.contact_info
    authorized_person := m.authorized_person
    tax_info := m.tax_info
    registration_authorities := m.registration_authorities
    last_inspection_date := m.last_inspection_date
    company_profile := m.company_profile }

/-! Concrete fixtures, following the example scenario of spec section 8:
company code 12345, name Acme LLC, status active, later dissolved. -/

/-- Page content for an active Acme LLC. -/
def attrsA : SourceAttrs :=
  { name := some "Acme LLC"
    status := some "active"
    registration_date := none
    authorized_capital := none
    legal_form := none
    main_activity := none
    contact_info := none
    authorized_person := none
    tax_info := none
    registration_authorities := none
    last_inspection_date := none
    company_profile := none }

/-- Page content after Acme LLC is dissolved: one attribute changed. -/
def attrsB : SourceAttrs :=
  { attrsA with status := some "dissolved" }

/-- A source that always serves the active Acme LLC page. -/
def envA : SourceEnv := fun _ => .ok attrsA

/-- A source that always serves the dissolved Acme LLC page. -/
def envB : SourceEnv := fun _ => .ok attrsB

/-- A source whose fetch always fails. -/
def envFail : SourceEnv := fun _ => .error .unreachable

/-- A source that fails for code 11111 and serves Acme LLC otherwise. -/
def envK : SourceEnv :=
  fun c => if c == "11111" then .error .unreachable else .ok attrsA

/-- The row the first successful fetch of code 12345 at time 0 creates. -/
def row1 : CompanyRow :=
  { id := 1
    code := "12345"
    name := some "Acme LLC"
    status := some "active"
    registration_date := none
    authorized_capital := none
    legal_form := none
    main_activity := none
    contact_info := none
    authorized_person := none
    tax_info := none
    registration_authorities := none
    last_inspection_date := none
    company_profile := none
    last_updated := 0 }

/-- row1 rewritten by a later refresh with unchanged content at time
172800 (two days). -/
def rowRefreshed : CompanyRow := { row1 with last_updated := 172800 }

/-- row1 rewritten by a refresh that observed the dissolved status. -/
def rowChanged : CompanyRow :=
  { row1 with status := some "dissolved", last_updated := 172800 }

/-- row1 with a recent last_updated, fresher than one day at time 172800. -/
def rowFresh : CompanyRow := { row1 with last_updated := 100000 }

/-- A second stale company, used for the sweep-isolation batch. -/
def rowK1 : CompanyRow := { row1 with code := "11111" }

/-- A third stale company, used for the sweep-isolation batch. -/
def rowK2 : CompanyRow := { row1 with id := 2, code := "22222" }

/-- A subscriber. -/
def user7 : UserRow := { id := 7, email := "sub@example.com" }

/-- The empty store. -/
def store0 : Store :=
  { companies := [], users := [], subscriptions := [], next_company_id := 1 }

/-- The store after the first fetch of code 12345 at time 0. -/
def store1 : Store :=
  { companies := [row1], users := [], subscriptions := [], next_company_id := 2 }

/-- The store after a second unchanged-content refresh at time 172800. -/
def store2 : Store :=
  { companies := [rowRefreshed], users := [], subscriptions := [],
    next_company_id := 2 }

/-- Store with the company, one user, and no subscription yet. -/
def storeNoSub : Store :=
  { companies := [row1], users := [user7], subscriptions := [],
    next_company_id := 2 }

/-- Store with the company and user 7 subscribed to it. -/
def storeSub : Store :=
  { companies := [row1], users := [user7], subscriptions := [(7, 1)],
    next_company_id := 2 }

/-- storeSub after the sweep observed the dissolved status at time 172800. -/
def storeSubChanged : Store :=
  { companies := [rowChanged], users := [user7], subscriptions := [(7, 1)],
    next_company_id := 2 }

/-- Store holding only a fresh record for code 12345. -/
def storeFresh : Store :=
  { companies := [rowFresh], users := [], subscriptions := [],
    next_company_id := 2 }

/-- Store holding the two stale records of the sweep-isolation batch. -/
def storeBatch : Store :=
  { companies := [rowK1, rowK2], users := [], subscriptions := [],
    next_company_id := 3 }

/-- Claim C1, counterexample: two records whose code and all twelve
attribute fields are identical and that differ only in last_updated are
reported as different by the comparison the refresh paths use, because the
comparison excludes only id and last_updated is a field of the compared
dicts.  The claim says such a pair is reported not different. -/
theorem claim1_counterexample :
    dicts_differ_excluding_id ({ from_orm rowRefreshed with id := none })
        (from_orm row1) = true ∧
    (from_orm rowRefreshed).code = (from_orm row1).code ∧
    (from_orm rowRefreshed).name = (from_orm row1).name ∧
    (from_orm rowRefreshed).status = (from_orm row1).status ∧
    (from_orm rowRefreshed).registration_date = (from_orm row1).registration_date ∧
    (from_orm rowRefreshed).authorized_capital = (from_orm row1).authorized_capital ∧
    (from_orm rowRefreshed).legal_form = (from_orm row1).legal_form ∧
    (from_orm rowRefreshed).main_activity = (from_orm row1).main_activity ∧
    (from_orm rowRefreshed).contact_info = (from_orm row1).contact_info ∧
    (from_orm rowRefreshed).authorized_person = (from_orm row1).authorized_person ∧
    (from_orm rowRefreshed).tax_info = (from_orm row1).tax_info ∧
    (from_orm rowRefreshed).registration_authorities = (from_orm row1).registration_authorities ∧
    (from_orm rowRefreshed).last_inspection_date = (from_orm row1).last_inspection_date ∧
    (from_orm rowRefreshed).company_profile = (from_orm row1).company_profile := by
  decide

/-- Claim C1 (amended): the change comparison used by the refresh paths
compares the dicts of the old and new record excluding only id; it reports
not different exactly when the code, all twelve attribute fields, and also
last_updated agree, and reports different on any inequality among those
fields — so a pair identical in everything but last_updated is reported
different, and any attribute-level inequality (including one side present
and the other absent, these being Option values) is reported different. -/
theorem claim1_theorem (a b : CompanyDataModel) :
    dicts_differ_excluding_id a b = false ↔
      (a.code = b.code ∧ a.name = b.name ∧ a.status = b.status ∧
       a.registration_date = b.registration_date ∧
       a.authorized_capital = b.authorized_capital ∧
       a.legal_form = b.legal_form ∧ a.main_activity = b.main_activity ∧
       a.contact_info = b.contact_info ∧
       a.authorized_person = b.authorized_person ∧ a.tax_info = b.tax_info ∧
       a.registration_authorities = b.registration_authorities ∧
       a.last_inspection_date = b.last_inspection_date ∧
       a.company_profile = b.company_profile ∧
       a.last_updated = b.last_updated) := by
  simp [dicts_differ_excluding_id, dict_exclude_id, CompanyDict.mk.injEq,
    bne_eq_false_iff_eq]

/-- Claim C3, counterexample: the store holds a stale record for code
12345 (two days old at the time of the call) and the fetch fails; the
claim says get_company_data returns the stale stored record, but the code
propagates the fetch failure instead. -/
theorem claim3_counterexample :
    get_company_data envFail store1 "12345" 172800 true =
      .error (.fetchError .unreachable) := by
  rfl

/-- Claim C3 (amended): for every call to get_company_data with
use_cache=True where a stored record for the code exists but is stale (at
least one day old), if the fetch performed during the refresh fails then
get_company_data propagates the failure to the caller (the transaction
rolls back, leaving the store unchanged); the stale stored record is not
returned — the read path fails closed, not open. -/
theorem claim3_theorem (env : SourceEnv) (st : Store) (code : String)
    (now : Int) (r : CompanyRow) (e : FetchErr)
    (hfind : find_one_or_none_by_code st code = some r)
    (hstale : r.last_updated ≤ now - oneDay)
    (henv : env code = .error e) :
    get_company_data env st code now true = .error (.fetchError e) := by
  have hd : decide (r.last_updated > now - oneDay) = false := by
    simp only [decide_eq_false_iff_not, not_lt]
    exact hstale
  simp [get_company_data, hfind, hd, fetch_or_update_company, parse_company,
    henv]

/-- Witness for claim C3: the stale store and the failing source satisfy
the hypotheses, and the call indeed surfaces the fetch failure. -/
theorem claim3_theorem_witness :
    get_company_data envFail store1 "12345" 172800 true =
      .error (.fetchError .unreachable) :=
  claim3_theorem envFail store1 "12345" 172800 row1 .unreachable rfl
    (by decide) rfl

/-- Claim C6: every invocation of update_company_data_for_all raises
before fetching or writing anything, for every state of the store: the
method get_stale_records_as_dict it calls on the company repository is not
among the methods CompanyRepository or its base SQLAlchemyRepository
define, so the attribute lookup raises AttributeError first thing; the
result does not depend on the source or the store, the transaction rolls
back, and no record is ever processed. -/
theorem claim6_theorem (env : SourceEnv) (st : Store) (now : Int) :
    update_company_data_for_all env st now =
      .error (.attributeError "get_stale_records_as_dict") := by
  rfl

/-- Claim C7: for every call to get_company_data for a code with no stored
record, a fetch failure propagates to the caller (the no-data-and-no-fetch
condition the spec names RecordUnavailable) and no store write occurs:
the error return means the transaction rolled back, and the failure
happens before any repository write is reached. -/
theorem claim7_theorem (env : SourceEnv) (st : Store) (code : String)
    (now : Int) (use_cache : Bool) (e : FetchErr)
    (hfind : find_one_or_none_by_code st code = none)
    (henv : env code = .error e) :
    get_company_data env st code now use_cache =
      .error (.fetchError e) := by
  simp [get_company_data, hfind, fetch_or_update_company, parse_company, henv]

/-- Witness for claim C7: an empty store and a failing fetch for code
99999 (the example scenario of spec section 8). -/
theorem claim7_theorem_witness :
    get_company_data envFail store0 "99999" 0 true =
      .error (.fetchError .unreachable) :=
  claim7_theorem envFail store0 "99999" 0 true .unreachable rfl rfl

/-- Claim C8: for every call to get_company_data with use_cache=True where
a stored record exists whose age is strictly less than one day, the stored
record is returned unchanged, the store is returned untouched (zero
writes), no notification happens, and the result does not depend on the
source environment at all (zero fetches). -/
theorem claim8_theorem (env : SourceEnv) (st : Store) (code : String)
    (now : Int) (r : CompanyRow)
    (hfind : find_one_or_none_by_code st code = some r)
    (hfresh : now - r.last_updated < oneDay) :
    get_company_data env st code now true = .ok (st, from_orm r, []) := by
  have hgt : r.last_updated > now - oneDay := by omega
  have hd : decide (r.last_updated > now - oneDay) = true :=
    decide_eq_true hgt
  simp [get_company_data, hfind, hd]

/-- Witness for claim C8: a record 72800 seconds old is served from the
store even though the source is unreachable — no fetch is attempted. -/
theorem claim8_theorem_witness :
    get_company_data envFail storeFresh "12345" 172800 true =
      .ok (storeFresh, from_orm rowFresh, []) :=
  claim8_theorem envFail storeFresh "12345" 172800 rowFresh rfl (by decide)

/-- Claim C2, counterexample: the source content for code 12345 never
changes (the same envA serves both calls), yet after the first fetch at
time 0 stores the record with last_updated 0, a second refresh through
fetch_or_update_company at time 172800 rewrites the record and sets its
last_updated to 172800: the comparison includes last_updated, which
parse_company always sets to the current time, so the unchanged content is
detected as a change. -/
theorem claim2_counterexample :
    fetch_or_update_company envA store0 "12345" 0 none =
      .ok (store1, from_orm row1, []) ∧
    fetch_or_update_company envA store1 "12345" 172800
        (some (from_orm row1)) =
      .ok (store2, { from_orm rowRefreshed with id := none }, []) ∧
    rowRefreshed.last_updated ≠ row1.last_updated := by
  refine ⟨rfl, rfl, by decide⟩

/-- Claim C2 (amended): after the first fetch, every further refresh of a
code whose source content never changes, run at a time different from the
stored last_updated, rewrites the stored record and sets its last_updated
to the refresh time (because the change comparison includes last_updated
and parse_company stamps the current time into the parsed record); no
notification is ever triggered by the refresh (the empty invocation list).
The bulk-sweep route never even reaches a record (see claim C6). -/
theorem claim2_theorem (env : SourceEnv) (st : Store) (code : String)
    (now : Int) (cd : CompanyDataModel) (a : SourceAttrs)
    (henv : env code = .ok a)
    (hsame : source_attrs_of cd = a)
    (hid : (st.companies.any fun r => some r.id == cd.id) = true)
    (hnow : now ≠ cd.last_updated) :
    ∃ st2 m, fetch_or_update_company env st code now (some cd) =
        .ok (st2, m, []) ∧
      m.last_updated = now ∧
      ∀ r ∈ st2.companies, some r.id = cd.id → r.last_updated = now := by
  obtain ⟨P, hP⟩ : ∃ P : CompanyDataModel, P =
      { id := none
        code := code
        name := a.name
        status := a.status
        registration_date := a.registration_date
        authorized_capital := a.authorized_capital
        legal_form := a.legal_form
        main_activity := a.main_activity
        contact_info := a.contact_info
        authorized_person := a.authorized_person
        tax_info := a.tax_info
        registration_authorities := a.registration_authorities
        last_inspection_date := a.last_inspection_date
        company_profile := a.company_profile
        last_updated := now } := ⟨_, rfl⟩
  have hPlu : P.last_updated = now := by rw [hP]
  have hparse : parse_company env code now = .ok P := by
    rw [hP]
    simp [parse_company, henv]
  have hdiff : dicts_differ_excluding_id P cd = true := by
    refine bne_iff_ne.mpr fun hEq => hnow ?_
    have h2 : P.last_updated = cd.last_updated :=
      congrArg CompanyDict.last_updated hEq
    rw [← hPlu]
    exact h2
  have key : fetch_or_update_company env st code now (some cd) =
      .ok ({ st with companies := st.companies.map fun r =>
              if some r.id == cd.id then
                row_of_dict r.id (dict_exclude_id P)
              else r },
            P, []) := by
    simp only [fetch_or_update_company, hparse, hdiff, if_true, update_one,
      hid]
  refine ⟨_, P, key, hPlu, ?_⟩
  intro r hr hrid
  rcases List.mem_map.mp hr with ⟨q, _hq, rfl⟩
  by_cases hcase : (some q.id == cd.id) = true
  · rw [if_pos hcase]
    exact hPlu
  · rw [if_neg hcase] at hrid
    exact absurd (beq_iff_eq.mpr hrid) hcase

/-- Witness for claim C2: the second refresh of the counterexample
scenario satisfies the hypotheses (unchanged content, advanced clock), and
the rewritten record carries the new time. -/
theorem claim2_theorem_witness :
    ∃ st2 m, fetch_or_update_company envA store1 "12345" 172800
        (some (from_orm row1)) = .ok (st2, m, []) ∧
      m.last_updated = 172800 ∧
      ∀ r ∈ st2.companies, some r.id = (from_orm row1).id →
        r.last_updated = 172800 :=
  claim2_theorem envA store1 "12345" 172800 (from_orm row1) attrsA rfl
    (by decide) (by decide) (by decide)

/-- Claim C4: evaluation of the bulk sweep on a store holding one stale
record whose source content changed (status active to dissolved) and one
subscriber to that company.  As written the sweep raises AttributeError
before touching anything; run past the missing stale-record query (the
spec-modelled body), it updates the record but performs zero notify_user
invocations — notify_subscribers_of_update is never called (it has no
caller in the repository), even though a subscriber is on file. -/
theorem claim4_theorem :
    update_company_data_for_all envB storeSub 172800 =
      .error (.attributeError "get_stale_records_as_dict") ∧
    update_company_data_for_all_body envB storeSub 172800 =
      .ok (storeSubChanged, []) ∧
    get_users_subscribed_to_company storeSub 1 = [user7] := by
  refine ⟨rfl, rfl, rfl⟩

/-- Helper for claim C5: if the source fetch fails for some record of the
batch the sweep loop processes, the loop ends in an error — there is no
per-record isolation in the loop body, so one failure aborts the whole
batch and rolls the transaction back. -/
theorem sweep_loop_error_of_mem_fail (env : SourceEnv) (now : Int) :
    ∀ (l : List CompanyRow) (st : Store),
      (∃ r ∈ l, ∃ e, env r.code = .error e) →
      ∃ e2, update_company_sweep_loop env now l st = .error e2 := by
  intro l
  induction l with
  | nil =>
      intro st h
      rcases h with ⟨r, hr, _⟩
      exact absurd hr (List.not_mem_nil r)
  | cons c rest ih =>
      intro st h
      rcases h with ⟨r, hr, e, he⟩
      rcases List.mem_cons.mp hr with hrc | hrrest
      · subst hrc
        refine ⟨.fetchError e, ?_⟩
        simp only [update_company_sweep_loop, from_orm, parse_company, he]
      · match hp : env (from_orm c).code with
        | .error e3 =>
            refine ⟨.fetchError e3, ?_⟩
            simp only [update_company_sweep_loop, parse_company, hp]
        | .ok a =>
            have hrec : ∃ r ∈ rest, ∃ e4, env r.code = .error e4 :=
              ⟨r, hrrest, e, he⟩
            simp only [update_company_sweep_loop, parse_company, hp]
            by_cases hd : dicts_differ_excluding_id
                { id := none
                  code := (from_orm c).code
                  name := a.name
                  status := a.status
                  registration_date := a.registration_date
                  authorized_capital := a.authorized_capital
                  legal_form := a.legal_form
                  main_activity := a.main_activity
                  contact_info := a.contact_info
                  authorized_person := a.authorized_person
                  tax_info := a.tax_info
                  registration_authorities := a.registration_authorities
                  last_inspection_date := a.last_inspection_date
                  company_profile := a.company_profile
                  last_updated := now } (from_orm c) = true
            · simp only [hd, if_true]
              match update_one st (from_orm c).id
                  (dict_exclude_id _) with
              | .error e5 => exact ⟨e5, rfl⟩
              | .ok st2 => exact ih st2 hrec
            · simp only [Bool.not_eq_true] at hd
              simp only [hd, Bool.false_eq_true, if_false]
              exact ih st hrec

/-- Claim C5, counterexample: a batch of two stale records where the fetch
for the first fails and the fetch for the second would succeed; the claim
says the sweep still refreshes the other record and does not raise out of
the batch call, but the loop (run past the missing stale-record query)
propagates the failure out of the batch, rolling back everything, and the
second record is never refreshed. -/
theorem claim5_counterexample :
    update_company_data_for_all_body envK storeBatch 172800 =
      .error (.fetchError .unreachable) ∧
    envK "22222" = .ok attrsA := by
  refine ⟨rfl, rfl⟩

/-- Claim C5 (amended): a fetch or parse failure for any record of the
batch makes the whole sweep body raise out of the batch call: the loop has
no per-record exception handling, so the error propagates, the unit of
work rolls back every update of the sweep, and the remaining records are
not refreshed.  (As written the sweep cannot even reach the loop, see
claim C6.) -/
theorem claim5_theorem (env : SourceEnv) (st : Store) (now : Int)
    (h : ∃ r ∈ get_stale_records_as_dict st (now - oneDay),
      ∃ e, env r.code = .error e) :
    ∃ e2, update_company_data_for_all_body env st now = .error e2 :=
  sweep_loop_error_of_mem_fail env now
    (get_stale_records_as_dict st (now - oneDay)) st h

/-- Witness for claim C5: the two-record batch with the failing first
fetch satisfies the hypothesis, and the sweep body ends in an error. -/
theorem claim5_theorem_witness :
    ∃ e2, update_company_data_for_all_body envK storeBatch 172800 =
      .error e2 :=
  claim5_theorem envK storeBatch 172800 ⟨rowK1, by decide, .unreachable, rfl⟩

/-- Claim C9: evaluation of subscription fan-out on a store holding the
company (id 1, name Acme LLC) and one subscriber.  As written,
notify_subscribers_of_update raises AttributeError because the UnitOfWork
carries no user_subscription repository; with that wiring supplied, the
loop renders the message and calls notify_user with the subscriber email,
the subject Company Update Notification and the rendered body — but
notify_user forwards those three arguments positionally into
EmailService.send_email(subject, body, recipients), so the send is
attempted with the email in the subject slot, the subject string in the
body slot and the rendered body in the recipients slot, and it crashes on
body.body with AttributeError before reaching smtplib: no send with the
claimed arguments ever happens. -/
theorem claim9_theorem :
    notify_subscribers_of_update storeSub 1 =
      .error (.attributeError "user_subscription") ∧
    notify_subscribers_of_update_wired storeSub 1 =
      .error (.attributeError "body") ∧
    get_users_subscribed_to_company storeSub 1 = [user7] ∧
    notify_user (.str user7.email) (.str "Company Update Notification")
        (.str (render_template "company_update_notification" user7.email
          "Acme LLC")) =
      send_email (.str user7.email) (.str "Company Update Notification")
        (.str (render_template "company_update_notification" user7.email
          "Acme LLC")) := by
  refine ⟨rfl, rfl, rfl, rfl⟩

/-- Claim C10: evaluation of subscribe_user_to_company on a store holding
the company and user 7, not yet subscribed.  As written the call raises
AttributeError (the UnitOfWork carries no user_subscription repository),
so no subscription is ever stored and AlreadySubscribedError is never
reached; with the wiring supplied, the intended behavior holds: the first
call stores the one subscription, the second call raises
AlreadySubscribedError, and exactly one subscription for the pair
exists. -/
theorem claim10_theorem :
    subscribe_user_to_company storeNoSub "12345" 7 =
      .error (.attributeError "user_subscription") ∧
    subscribe_user_to_company_wired storeNoSub "12345" 7 =
      .ok (storeSub,
        "You are now subscribed to updates for company Acme LLC") ∧
    subscribe_user_to_company_wired storeSub "12345" 7 =
      .error (.alreadySubscribed 7) ∧
    storeSub.subscriptions.count (7, 1) = 1 := by
  refine ⟨rfl, rfl, rfl, rfl⟩

end CompanySync
